import Mathlib

/-!
Verification development for the certfuzz debugger-output parser
(src/certfuzz/debuggers/output_parsers/debugger_file_base.py).

The Python source is shallowly embedded: each method of the
DebuggerFile class becomes a Lean function over an explicit state
record, and each regular expression of the module-level table becomes
a hand-written matcher with the same (leftmost / rightmost, greedy)
semantics restricted to the shapes the source uses.  Machine integers
are Nat (addresses are unbounded in Python).  Lines are assumed
newline-free, as the source strips each line of the file.
-/

/-! ### Character classes (Python 2 `re` semantics for str) -/

def pyIsSpace (c : Char) : Bool :=
  c == ' ' || c == '\t' || c == '\n' || c == '\r' || c.toNat == 11 || c.toNat == 12

def isDigitC (c : Char) : Bool :=
  48 ≤ c.toNat && c.toNat ≤ 57

def isHexDigitC (c : Char) : Bool :=
  isDigitC c || (97 ≤ c.toNat && c.toNat ≤ 102) || (65 ≤ c.toNat && c.toNat ≤ 70)

def isAlnumC (c : Char) : Bool :=
  isDigitC c || (97 ≤ c.toNat && c.toNat ≤ 122) || (65 ≤ c.toNat && c.toNat ≤ 90)

def isWordC (c : Char) : Bool :=
  isAlnumC c || c == '_'

/-! ### Small string helpers -/

/-- Substring containment, Python's `needle in hay`. -/
def infixB (n : List Char) : List Char → Bool
  | [] => n.isPrefixOf []
  | c :: t => n.isPrefixOf (c :: t) || infixB n t

def containsStr (needle hay : String) : Bool :=
  infixB needle.data hay.data

/-- Python `str.split()` with no argument: split on whitespace runs, no empties. -/
def splitWsAux : List Char → List Char → List (List Char)
  | [], cur => if cur.isEmpty then [] else [cur.reverse]
  | c :: rest, cur =>
    if pyIsSpace c then
      if cur.isEmpty then splitWsAux rest [] else cur.reverse :: splitWsAux rest []
    else splitWsAux rest (c :: cur)

def splitWs (s : List Char) : List (List Char) := splitWsAux s []

/-- Python `str.strip()` with no argument. -/
def pyStrip (s : String) : String :=
  String.mk (((s.data.dropWhile pyIsSpace).reverse.dropWhile pyIsSpace).reverse)

/-- Python `' '.join(xs)`. -/
def joinSpace (xs : List String) : String := String.intercalate " " xs

def hexDigitVal (c : Char) : Nat :=
  if isDigitC c then c.toNat - 48
  else if 97 ≤ c.toNat && c.toNat ≤ 102 then c.toNat - 87
  else if 65 ≤ c.toNat && c.toNat ≤ 70 then c.toNat - 55
  else 0

/-- Python `int(s, 16)` where `s` starts with the literal `0x`. -/
def hexNum0x (s : List Char) : Nat :=
  (s.drop 2).foldl (fun a c => a * 16 + hexDigitVal c) 0

/-- Consume a literal; `none` when it is not a prefix. -/
def litChomp (lit s : List Char) : Option (List Char) :=
  if lit.isPrefixOf s then some (s.drop lit.length) else none

/-- Consume `\s+` (greedy): the maximal nonempty whitespace run. -/
def spaces1 (s : List Char) : Option (List Char) :=
  let sp := s.takeWhile pyIsSpace
  if sp.isEmpty then none else some (s.drop sp.length)

/-- Consume `0x[0-9a-fA-F]+` returning (hex digits, rest). -/
def hexChomp : List Char → Option (List Char × List Char)
  | '0' :: 'x' :: rest =>
    let ds := rest.takeWhile isHexDigitC
    if ds.isEmpty then none else some (ds, rest.drop ds.length)
  | _ => none

/-! ### The regex table, one matcher per pattern actually used -/

/-- Regex `bt_line_basic`: `^#\d` via re.match. -/
def btLineBasic : List Char → Bool
  | '#' :: c :: _ => isDigitC c
  | _ => false

/-- Regex `bt_line`: `^#\d+\s+(.*)$` via re.match; returns group 1. -/
def btLineMatch : List Char → Option (List Char)
  | '#' :: rest =>
    let ds := rest.takeWhile isDigitC
    if ds.isEmpty then none
    else
      let r1 := rest.drop ds.length
      let sp := r1.takeWhile pyIsSpace
      if sp.isEmpty then none else some (r1.drop sp.length)
  | _ => none

/-- Regex `bt_addr`: `(0x[0-9a-fA-F]+)\s+.+$` via re.match; returns group 1
(the `0x`-prefixed maximal hex run; the line must go on with whitespace and
at least one further character). -/
def btAddrMatch : List Char → Option (List Char)
  | '0' :: 'x' :: rest =>
    let hs := rest.takeWhile isHexDigitC
    if hs.isEmpty then none
    else
      match rest.drop hs.length with
      | c :: _ :: _ => if pyIsSpace c then some ('0' :: 'x' :: hs) else none
      | _ => none
  | _ => none

/-- Attempt `in\s+(\S+)\s+\(` at the start of `t` (tail of `bt_function`). -/
def tryIn (t : List Char) : Option (List Char) :=
  match t with
  | 'i' :: 'n' :: r1 =>
    match spaces1 r1 with
    | none => none
    | some r2 =>
      let w := r2.takeWhile (fun c => !pyIsSpace c)
      if w.isEmpty then none
      else
        match spaces1 (r2.drop w.length) with
        | none => none
        | some r3 =>
          match r3 with
          | '(' :: _ => some w
          | _ => none
  | _ => none

/-- Rightmost-first scan used by the greedy `.+` of `bt_function`. -/
def posScanIn : List Char → Option (List Char)
  | [] => none
  | c :: rest =>
    match posScanIn rest with
    | some w => some w
    | none => tryIn (c :: rest)

/-- Regex `bt_function`: `.+in\s+(\S+)\s+\(` via re.match; greedy `.+` means
the rightmost `in` (at position at least 1) wins. -/
def btFunctionMatch : List Char → Option (List Char)
  | [] => none
  | _ :: rest => posScanIn rest

/-- Backtracking split of `(\S+:\d+)` over a maximal non-space run `w`:
the rightmost colon followed by a digit, at position at least 1; the group
ends with the maximal digit run after that colon. -/
def atSplitAux : List Char → Option (List Char)
  | [] => none
  | c :: rest =>
    match atSplitAux rest with
    | some g => some (c :: g)
    | none =>
      match c, rest with
      | ':', d :: ds => if isDigitC d then some (':' :: d :: ds.takeWhile isDigitC) else none
      | _, _ => none

def atSplit : List Char → Option (List Char)
  | [] => none
  | c :: rest =>
    match atSplitAux rest with
    | some g => some (c :: g)
    | none => none

/-- Attempt `\s+at\s+(\S+:\d+)` at the start of `t`. -/
def tryAt (t : List Char) : Option (List Char) :=
  match spaces1 t with
  | none => none
  | some r1 =>
    match r1 with
    | 'a' :: 't' :: r2 =>
      match spaces1 r2 with
      | none => none
      | some r3 => atSplit (r3.takeWhile (fun c => !pyIsSpace c))
    | _ => none

/-- Regex `bt_at`: `\s+at\s+(\S+:\d+)` via re.search (leftmost match wins). -/
def btAtSearch : List Char → Option (List Char)
  | [] => none
  | c :: rest =>
    match tryAt (c :: rest) with
    | some g => some g
    | none => btAtSearch rest

/-- Word-boundary search: re.search of `\bw\b` where `w` is a word. -/
def wordSearchGo (w : List Char) : Bool → List Char → Bool
  | _, [] => false
  | prevWord, c :: rest =>
    (!prevWord && w.isPrefixOf (c :: rest) &&
      (match (c :: rest).drop w.length with
       | [] => true
       | d :: _ => !isWordC d)) ||
    wordSearchGo w (isWordC c) rest

def wordSearch (w s : List Char) : Bool := wordSearchGo w false s

/-- Regex `exit_code`: `Program exited with code (\d+)` via re.match. -/
def exitCodeMatch (s : List Char) : Option (List Char) :=
  match litChomp "Program exited with code ".data s with
  | none => none
  | some r =>
    let ds := r.takeWhile isDigitC
    if ds.isEmpty then none else some ds

/-- Regex `signal`: `Program\sreceived\ssignal\s+([^,]+)` via re.match. -/
def signalMatch (s : List Char) : Option (List Char) :=
  match litChomp "Program".data s with
  | none => none
  | some r1 =>
    match r1 with
    | c1 :: r2 =>
      if pyIsSpace c1 then
        match litChomp "received".data r2 with
        | none => none
        | some r3 =>
          match r3 with
          | c2 :: r4 =>
            if pyIsSpace c2 then
              match litChomp "signal".data r4 with
              | none => none
              | some r5 =>
                let sp := r5.takeWhile pyIsSpace
                if sp.isEmpty then none
                else
                  let rest := r5.drop sp.length
                  let g := rest.takeWhile (fun c => !(c == ','))
                  if !g.isEmpty then some g
                  else if 2 ≤ sp.length then some [' ']
                  else none
            else none
          | [] => none
      else none
    | [] => none

/-- Rightmost-first scan for `(0x[0-9a-zA-Z]+)` used by `faddr`'s greedy `.+`. -/
def hexTokScan : List Char → Option (List Char)
  | [] => none
  | c :: rest =>
    match hexTokScan rest with
    | some g => some g
    | none =>
      match c, rest with
      | '0', 'x' :: r2 =>
        let ds := r2.takeWhile isAlnumC
        if ds.isEmpty then none else some ('0' :: 'x' :: ds)
      | _, _ => none

/-- Regex `faddr`: `^si_addr.+(0x[0-9a-zA-Z]+)` via re.match. -/
def faddrMatch (s : List Char) : Option (List Char) :=
  match litChomp "si_addr".data s with
  | none => none
  | some r =>
    match r with
    | _ :: rest => hexTokScan rest
    | [] => none

/-- Regex `register`: `(0x[0-9a-zA-Z]+)\s+(.+)$` via re.match on the joined
tail of the line; returns (group 1, group 2). -/
def registerMatch (s : List Char) : Option (List Char × List Char) :=
  match s with
  | '0' :: 'x' :: rest =>
    let ds := rest.takeWhile isAlnumC
    if ds.isEmpty then none
    else
      let r1 := rest.drop ds.length
      let sp := r1.takeWhile pyIsSpace
      if sp.isEmpty then none
      else
        let r2 := r1.drop sp.length
        if !r2.isEmpty then some ('0' :: 'x' :: ds, r2)
        else if 2 ≤ sp.length then some ('0' :: 'x' :: ds, [' '])
        else none
  | _ => none

/-- Consume `0(x0)?\s+` (with the regex backtracking on the optional part). -/
def zeroChomp : List Char → Option (List Char)
  | '0' :: r =>
    (match r with
     | 'x' :: '0' :: r2 =>
       match spaces1 r2 with
       | some r3 => some r3
       | none => spaces1 r
     | _ => spaces1 r)
  | _ => none

/-- Regex `mapped_frame`:
`(0x..+)\s+(0x..+)\s+0x..+\s+0(x0)?\s+(/.+)` via re.match; returns
(start, end, objfile). -/
def mappedFrameMatch (s : List Char) : Option (Nat × Nat × List Char) :=
  match hexChomp s with
  | none => none
  | some (g1, r1) =>
    match spaces1 r1 with
    | none => none
    | some r2 =>
      match hexChomp r2 with
      | none => none
      | some (g2, r3) =>
        match spaces1 r3 with
        | none => none
        | some r4 =>
          match hexChomp r4 with
          | none => none
          | some (_, r5) =>
            match spaces1 r5 with
            | none => none
            | some r6 =>
              match zeroChomp r6 with
              | none => none
              | some r7 =>
                match r7 with
                | '/' :: _ :: _ =>
                  some (g1.foldl (fun a c => a * 16 + hexDigitVal c) 0,
                        g2.foldl (fun a c => a * 16 + hexDigitVal c) 0, r7)
                | _ => none

/-- Tail check for `libc_location`: `.+/libc[-.]` after the fourth field. -/
def libcTailAt (u : List Char) : Bool :=
  ("/libc".data.isPrefixOf u) &&
  (match u.drop 5 with
   | d :: _ => d == '-' || d == '.'
   | [] => false)

def anySuffixLibc : List Char → Bool
  | [] => false
  | c :: r => libcTailAt (c :: r) || anySuffixLibc r

/-- Tail check for `libgcc_location`: `.+/libgcc(_s)?[-.]`. -/
def libgccTailAt (u : List Char) : Bool :=
  ("/libgcc".data.isPrefixOf u) &&
  (let v := u.drop 7
   (match v with
    | '_' :: 's' :: d :: _ => d == '-' || d == '.'
    | _ => false) ||
   (match v with
    | d :: _ => d == '-' || d == '.'
    | [] => false))

def anySuffixLibgcc : List Char → Bool
  | [] => false
  | c :: r => libgccTailAt (c :: r) || anySuffixLibgcc r

/-- Common front of `libc_location` / `libgcc_location`:
`(0x..+)\s+(0x..+)\s+0x..+\s+0(x0)?\s+` then the library-specific tail,
which must start at offset at least one into the remainder (the `.+`). -/
def libLocMatch (tail : List Char → Bool) (s : List Char) : Option (Nat × Nat) :=
  match hexChomp s with
  | none => none
  | some (g1, r1) =>
    match spaces1 r1 with
    | none => none
    | some r2 =>
      match hexChomp r2 with
      | none => none
      | some (g2, r3) =>
        match spaces1 r3 with
        | none => none
        | some r4 =>
          match hexChomp r4 with
          | none => none
          | some (_, r5) =>
            match spaces1 r5 with
            | none => none
            | some r6 =>
              match zeroChomp r6 with
              | none => none
              | some r7 =>
                match r7 with
                | _ :: rest =>
                  if tail rest then
                    some (g1.foldl (fun a c => a * 16 + hexDigitVal c) 0,
                          g2.foldl (fun a c => a * 16 + hexDigitVal c) 0)
                  else none
                | [] => none

def libcLocationMatch (s : List Char) : Option (Nat × Nat) :=
  libLocMatch anySuffixLibc s

def libgccLocationMatch (s : List Char) : Option (Nat × Nat) :=
  libLocMatch anySuffixLibgcc s

/-- Regex `exploitability`: `^Exploitability Classification: (.+)$` via re.match. -/
def exploitabilityMatch (s : List Char) : Option (List Char) :=
  match litChomp "Exploitability Classification: ".data s with
  | none => none
  | some r => if r.isEmpty then none else some r

/-! ### Module-level constants of the source -/

/-- Tuple `registers` (32-bit 'info registers' names). -/
def registers32 : List String :=
  ["eax", "ecx", "edx", "ebx", "esp", "ebp", "esi",
   "edi", "eip", "cs", "ss", "ds", "es", "fs", "gs"]

/-- Tuple `registers64`. -/
def registers64 : List String :=
  ["rax", "rbx", "rcx", "rdx", "rsi", "rdi", "rbp",
   "rsp", "r8", "r9", "r10", "r11", "r12", "r13", "r14",
   "r15", "rip", "cs", "ss", "ds", "es", "fs", "gs"]

/-- Tuple `blacklist` (function names excluded from the hash). -/
def blacklist : List String :=
  ["__kernel_vsyscall", "abort", "raise", "malloc", "free",
   "*__GI_abort", "*__GI_raise", "malloc_printerr", "__libc_message",
   "malloc_consolidate", "_int_malloc", "__libc_calloc",
   "_dl_new_object", "_dl_map_object_from_fd", "_dl_catch_error",
   "_dl_open", "do_dlopen", "dlerror_run", "*__GI___libc_dlopen_mode",
   "_dl_map_object", "dl_open_worker", "munmap_chunk", "*__GI___backtrace",
   "_dl_addr_inside_object", "_int_free", "*__GI___libc_free",
   "__malloc_assert", "sYSMALLOc", "_int_realloc", "*__GI___libc_malloc",
   "*__GI___libc_realloc", "_int_memalign", "*__GI___libc_memalign",
   "__posix_memalign", "malloc_consolidate", "__libc_malloc", "__libc_realloc",
   "g_assertion_message", "g_assertion_message_expr"]

/-! ### The parse state (class DebuggerFile) -/

structure ModuleEntry where
  start : Nat
  stop : Nat
  objfile : String
  deriving DecidableEq, Repr

/-- The bound methods stored in `self.line_callbacks`. -/
inductive Callback where
  | look_for_64bit
  | look_for_exit_code
  | look_for_debug_build
  | look_for_corrupt_stack
  | look_for_libc_location
  | look_for_libgcc_location
  | look_for_signal
  | look_for_crash
  | look_for_registers
  | look_for_faddr
  | build_module_map
  | look_for_exploitability
  deriving DecidableEq, BEq, Repr

/-- The default `self.line_callbacks` list set in `__init__`. -/
def defaultCallbacks : List Callback :=
  [Callback.look_for_64bit,
   Callback.look_for_exit_code,
   Callback.look_for_debug_build,
   Callback.look_for_corrupt_stack,
   Callback.look_for_libc_location,
   Callback.look_for_libgcc_location,
   Callback.look_for_signal,
   Callback.look_for_crash,
   Callback.look_for_registers,
   Callback.look_for_faddr,
   Callback.build_module_map,
   Callback.look_for_exploitability]

/-- The mutable attributes of a DebuggerFile instance (file path and the
raw debugger_output blob are dropped; `lines` is the stripped line list). -/
structure DebuggerFile where
  lines : List String
  backtrace : List String
  registers : List (String × String)
  registers_sought : List String
  registers_hex : List (String × String)
  hashable_backtrace : List String
  hashable_backtrace_string : String
  module_map : List ModuleEntry
  exit_code : Option String
  signal : Option String
  is_corrupt_stack : Bool
  is_crash : Bool
  is_assert_fail : Bool
  is_debugbuild : Bool
  libc_start_addr : Nat
  libc_end_addr : Nat
  libgcc_start_addr : Nat
  libgcc_end_addr : Nat
  used_pc : Bool
  debugger_missed_stack_corruption : Bool
  total_stack_corruption : Bool
  pc_in_function : Bool
  is_64bit : Bool
  pc_name : String
  keep_uniq_faddr : Bool
  faddr : Option String
  exp : String
  exclude_unmapped_frames : Bool
  line_callbacks : List Callback
  deriving DecidableEq, Repr

/-- Python truthiness of an optional string attribute (None and the empty
string are falsy). -/
def pyTruthyOpt (o : Option String) : Bool :=
  match o with
  | none => false
  | some s => !(s == "")

/-- Python dict assignment `d[k] = v` on an association list. -/
def dictInsert (d : List (String × String)) (k v : String) : List (String × String) :=
  match d with
  | [] => [(k, v)]
  | (k0, v0) :: rest => if k0 = k then (k, v) :: rest else (k0, v0) :: dictInsert rest k v

/-- Python `d.get(k)`. -/
def dictGet (d : List (String × String)) (k : String) : Option String :=
  match d with
  | [] => none
  | (k0, v0) :: rest => if k0 = k then some v0 else dictGet rest k

/-- Python `d.keys()`. -/
def dictKeys (d : List (String × String)) : List String := d.map Prod.fst

/-- The `__init__` attribute values, given the stripped lines of the file
and the two construction flags. -/
def initState (lines : List String) (exclude_unmapped keep_uniq : Bool) : DebuggerFile :=
  { lines := lines.map pyStrip
    backtrace := []
    registers := []
    registers_sought := registers32
    registers_hex := []
    hashable_backtrace := []
    hashable_backtrace_string := ""
    module_map := []
    exit_code := none
    signal := none
    is_corrupt_stack := false
    is_crash := true
    is_assert_fail := false
    is_debugbuild := false
    libc_start_addr := 0
    libc_end_addr := 0
    libgcc_start_addr := 0
    libgcc_end_addr := 0
    used_pc := false
    debugger_missed_stack_corruption := false
    total_stack_corruption := false
    pc_in_function := false
    is_64bit := false
    pc_name := "eip"
    keep_uniq_faddr := keep_uniq
    faddr := none
    exp := "UNKNOWN"
    exclude_unmapped_frames := exclude_unmapped
    line_callbacks := defaultCallbacks }

/-! ### The line callbacks -/

/-- Method `_look_for_64bit`. -/
def look_for_64bit (st : DebuggerFile) (l : String) : DebuggerFile :=
  if st.is_64bit then st
  else
    match btAddrMatch l.data with
    | some start_addr =>
      if 10 < start_addr.length then
        { st with is_64bit := true, pc_name := "rip", registers_sought := registers64 }
      else st
    | none => st

/-- Method `_look_for_exit_code` (removes itself from the callback list on
its first match). -/
def look_for_exit_code (st : DebuggerFile) (l : String) : DebuggerFile :=
  match exitCodeMatch l.data with
  | some ds =>
    { st with exit_code := some (String.mk ds),
              line_callbacks := st.line_callbacks.erase Callback.look_for_exit_code }
  | none => st

/-- Method `_look_for_debug_build`. -/
def look_for_debug_build (st : DebuggerFile) (l : String) : DebuggerFile :=
  if st.is_debugbuild then st
  else if containsStr " at " l then { st with is_debugbuild := true }
  else st

/-- Method `_look_for_corrupt_stack`. -/
def look_for_corrupt_stack (st : DebuggerFile) (l : String) : DebuggerFile :=
  if st.is_corrupt_stack then st
  else if containsStr "corrupt stack" l then { st with is_corrupt_stack := true }
  else st

/-- Method `_look_for_libc_location`. -/
def look_for_libc_location (st : DebuggerFile) (l : String) : DebuggerFile :=
  if st.libc_start_addr ≠ 0 then st
  else
    match libcLocationMatch l.data with
    | some (a, b) => { st with libc_start_addr := a, libc_end_addr := b }
    | none => st

/-- Method `_look_for_libgcc_location`. -/
def look_for_libgcc_location (st : DebuggerFile) (l : String) : DebuggerFile :=
  if st.libgcc_start_addr ≠ 0 then st
  else
    match libgccLocationMatch l.data with
    | some (a, b) => { st with libgcc_start_addr := a, libgcc_end_addr := b }
    | none => st

/-- Method `_look_for_signal` (a SIGABRT forces the faulting address to the
literal string '0'). -/
def look_for_signal (st : DebuggerFile) (l : String) : DebuggerFile :=
  if pyTruthyOpt st.signal then st
  else
    match signalMatch l.data with
    | some s =>
      let st1 := { st with signal := some (String.mk s) }
      if String.mk s = "SIGABRT" then { st1 with faddr := some "0" } else st1
    | none => st

/-- Method `_look_for_crash`. -/
def look_for_crash (st : DebuggerFile) (l : String) : DebuggerFile :=
  if !st.is_crash then st
  else if containsStr "SIGKILL" l then { st with is_crash := false }
  else if containsStr "SIGHUP" l then { st with is_crash := false }
  else if containsStr "SIGXFSZ" l then { st with is_crash := false }
  else if containsStr "Program exited normally" l then { st with is_crash := false }
  else st

/-- Method `_look_for_registers`. -/
def look_for_registers (st : DebuggerFile) (l : String) : DebuggerFile :=
  if st.registers_sought.length = 0 then st
  else
    match splitWs l.data with
    | [] => st
    | p0 :: restParts =>
      let r := String.mk p0
      if r ∈ st.registers_sought then
        let r_str := joinSpace (restParts.map String.mk)
        match registerMatch r_str.data with
        | some (g1, g2) =>
          { st with registers_hex := dictInsert st.registers_hex r (String.mk g1),
                    registers := dictInsert st.registers r (String.mk g2),
                    registers_sought := st.registers_sought.erase r }
        | none => st
      else st

/-- Method `_look_for_faddr`. -/
def look_for_faddr (st : DebuggerFile) (l : String) : DebuggerFile :=
  if pyTruthyOpt st.faddr then st
  else
    match faddrMatch l.data with
    | some g => { st with faddr := some (String.mk g) }
    | none => st

/-- Method `_build_module_map`. -/
def build_module_map (st : DebuggerFile) (l : String) : DebuggerFile :=
  match mappedFrameMatch l.data with
  | some (a, b, obj) =>
    { st with module_map := st.module_map ++ [⟨a, b, String.mk obj⟩] }
  | none => st

/-- Method `_look_for_exploitability` (guarded by the faulting address). -/
def look_for_exploitability (st : DebuggerFile) (l : String) : DebuggerFile :=
  if pyTruthyOpt st.faddr then st
  else
    match exploitabilityMatch l.data with
    | some g => { st with exp := String.mk g }
    | none => st

/-- Dispatch one stored callback. -/
def runCallback (cb : Callback) (st : DebuggerFile) (l : String) : DebuggerFile :=
  match cb with
  | Callback.look_for_64bit => look_for_64bit st l
  | Callback.look_for_exit_code => look_for_exit_code st l
  | Callback.look_for_debug_build => look_for_debug_build st l
  | Callback.look_for_corrupt_stack => look_for_corrupt_stack st l
  | Callback.look_for_libc_location => look_for_libc_location st l
  | Callback.look_for_libgcc_location => look_for_libgcc_location st l
  | Callback.look_for_signal => look_for_signal st l
  | Callback.look_for_crash => look_for_crash st l
  | Callback.look_for_registers => look_for_registers st l
  | Callback.look_for_faddr => look_for_faddr st l
  | Callback.build_module_map => build_module_map st l
  | Callback.look_for_exploitability => look_for_exploitability st l

/-- The Python `for callback in self.line_callbacks` loop: a list iterator
holds an index, re-reads the live list each step, and stops when the index
reaches the current length.  A callback that removes itself therefore
shifts the remaining entries left under the iterator.  The fuel argument
only bounds the iteration; `length + 1` steps always suffice because the
list never grows. -/
def runCallbacks : Nat → Nat → DebuggerFile → String → DebuggerFile
  | 0, _, st, _ => st
  | Nat.succ fuel, i, st, l =>
    match st.line_callbacks.get? i with
    | some cb => runCallbacks fuel (i + 1) (runCallback cb st l) l
    | none => st

/-! ### Backtrace assembler and the line loop -/

/-- The forward continuation scan of `backtrace_line`: starting after the
frame line, stop (without consuming) at the next frame-start line; append
any line containing the whole word `from` or `at` unless it contains
`Quit anyway` or `\x20=\x20`. -/
def contLoop : List String → List Char → List Char
  | [], item => item
  | nl :: rest, item =>
    if btLineBasic nl.data then item
    else
      if (wordSearch "from".data nl.data || wordSearch "at".data nl.data) &&
         !containsStr "Quit anyway" nl && !containsStr " = " nl
      then contLoop rest (item ++ (' ' :: nl.data))
      else contLoop rest item

/-- Method `backtrace_line(idx, l)`: appends a (possibly merged) frame. -/
def backtraceLineFn (lines : List String) (idx : Nat) (l : String)
    (backtrace : List String) : List String :=
  match btLineMatch l.data with
  | none => backtrace
  | some item => backtrace ++ [String.mk (contLoop (lines.drop (idx + 1)) item)]

/-- One iteration of `_process_lines`: the assembler, then the live
callback list. -/
def processLineFn (st : DebuggerFile) (idx : Nat) (l : String) : DebuggerFile :=
  let st1 := { st with backtrace := backtraceLineFn st.lines idx l st.backtrace }
  runCallbacks (st1.line_callbacks.length + 1) 0 st1 l

def processLinesAux : DebuggerFile → List (Nat × String) → DebuggerFile
  | st, [] => st
  | st, (i, l) :: rest => processLinesAux (processLineFn st i l) rest

/-- Method `_process_lines`. -/
def processLinesFn (st : DebuggerFile) : DebuggerFile :=
  processLinesAux st st.lines.enum

/-! ### Module map queries and the backtrace normalizer -/

/-- Method `_is_mapped_frame`: strict containment in some recorded range;
vacuously true when the module map is empty. -/
def isMappedFrame (mm : List ModuleEntry) (frame_address : Nat) : Bool :=
  if mm.length = 0 then true
  else mm.any (fun m => m.start < frame_address && frame_address < m.stop)

/-- Method `_get_frame_address`. -/
def getFrameAddress (bt_line : String) : Option Nat :=
  match btAddrMatch bt_line.data with
  | some g => some (hexNum0x g)
  | none => none

/-- The while loop of `_look_for_debugger_missed_stack_corruption`, run on
the reversed backtrace (so the head is the outermost frame).  Python's
`if frame_address:` treats both a missing address and a parsed address of
zero as falsy, stopping the trim.  Returns the trimmed (still reversed)
backtrace and whether any frame was popped. -/
def trimRev (mm : List ModuleEntry) : List String → List String × Bool
  | [] => ([], false)
  | f :: rest =>
    if (getFrameAddress f).getD 0 ≠ 0 then
      if isMappedFrame mm ((getFrameAddress f).getD 0) then (f :: rest, false)
      else ((trimRev mm rest).1, true)
    else (f :: rest, false)

/-- Method `_look_for_debugger_missed_stack_corruption`. -/
def missedCorruptionFn (st : DebuggerFile) : DebuggerFile :=
  let startLen := st.backtrace.length
  let p := trimRev st.module_map st.backtrace.reverse
  let newBt := p.1.reverse
  let st1 := { st with
    backtrace := newBt,
    debugger_missed_stack_corruption := st.debugger_missed_stack_corruption || p.2 }
  if startLen ≠ 0 ∧ newBt.length = 0 then { st1 with total_stack_corruption := true }
  else st1

/-- The descending-index deletion loop of `_remove_unmapped_frames`:
deleting at strictly descending indices is elementwise filtering. -/
def removeUnmappedLoop (mm : List ModuleEntry) : List String → List String
  | [] => []
  | bt :: rest =>
    let rest2 := removeUnmappedLoop mm rest
    match getFrameAddress bt with
    | some a => if isMappedFrame mm a then bt :: rest2 else rest2
    | none => bt :: rest2

/-- Method `_remove_unmapped_frames`. -/
def removeUnmappedFn (st : DebuggerFile) : DebuggerFile :=
  let bt2 := removeUnmappedLoop st.module_map st.backtrace
  let st1 := { st with backtrace := bt2 }
  if bt2.length = 0 then { st1 with total_stack_corruption := true } else st1

/-- Method `_process_backtrace` (early return on an empty backtrace; the
corrupt-stack pop, or the missed-corruption trim; optional unmapped-frame
removal; assert-fail scan; pc-in-function check). -/
def processBacktraceFn (st : DebuggerFile) : DebuggerFile :=
  if st.backtrace.length = 0 then st
  else
    let st1 :=
      if st.is_corrupt_stack then { st with backtrace := st.backtrace.dropLast }
      else missedCorruptionFn st
    let st2 := if st1.exclude_unmapped_frames then removeUnmappedFn st1 else st1
    let st3 :=
      if st2.backtrace.any (fun bt => containsStr "__assert_fail" bt) then
        { st2 with is_assert_fail := true }
      else st2
    match st3.backtrace with
    | [] => st3
    | b0 :: _ =>
      if !containsStr "in ??" b0 then { st3 with pc_in_function := true } else st3

/-! ### The hashable-backtrace builder -/

/-- The body of the `for bt in self.backtrace` loop of
`_hashable_backtrace`: returns the state (only `used_pc` can change) and
the token this frame contributes, if any.  Note that when the frame lacks
a leading address and the program-counter value is substituted, only the
numeric `frame_address` is set; `bt_frame` stays None, so without an
`at file:line` suffix no token is appended. -/
def hbStep (st : DebuggerFile) (bt : String) : DebuggerFile × Option String :=
  let n := btAddrMatch bt.data
  let pcv := dictGet st.registers_hex st.pc_name
  let st1 :=
    match n with
    | some _ => st
    | none => if pyTruthyOpt pcv && !st.used_pc then { st with used_pc := true } else st
  let bt_frame0 : Option String :=
    match n with
    | some g => some (String.mk g)
    | none => none
  let frame_address : Nat :=
    match n with
    | some g => hexNum0x g
    | none =>
      if pyTruthyOpt pcv && !st.used_pc then hexNum0x (pcv.getD "").data else 0
  if st.libc_start_addr < frame_address ∧ frame_address < st.libc_end_addr then
    (st1, none)
  else if st.libgcc_start_addr < frame_address ∧ frame_address < st.libgcc_end_addr then
    (st1, none)
  else
    let blacklisted :=
      match btFunctionMatch bt.data with
      | some fn => blacklist.contains (String.mk fn)
      | none => false
    if blacklisted then (st1, none)
    else
      match btAtSearch bt.data with
      | some g2 =>
        if containsStr "/sysdeps/" (String.mk g2) then (st1, none)
        else (st1, if String.mk g2 = "" then none else some (String.mk g2))
      | none =>
        match bt_frame0 with
        | some f => (st1, if f = "" then none else some f)
        | none => (st1, none)

/-- The frame loop, threading `used_pc` and accumulating tokens. -/
def hbLoop : DebuggerFile → List String → List String → DebuggerFile × List String
  | st, [], acc => (st, acc)
  | st, bt :: rest, acc =>
    let p := hbStep st bt
    hbLoop p.1 rest (match p.2 with
                     | some t => acc ++ [t]
                     | none => acc)

/-- Method `_hashable_backtrace` (cached; the fallback appends the
`total_stack_corruption` token and, independently, either the exit-code
token or the raw first pre-filter backtrace entry; an empty result
reclassifies the document as not a crash). -/
def hashableBacktraceFn (st : DebuggerFile) : DebuggerFile :=
  if st.hashable_backtrace ≠ [] then st
  else
    let p := hbLoop st st.backtrace []
    let st1 := p.1
    let h1 :=
      if p.2 = [] then
        (if st1.total_stack_corruption then ["total_stack_corruption"] else []) ++
        (if pyTruthyOpt st1.exit_code then
           ["exit_code:" ++ (st1.exit_code.getD "")]
         else
           match st1.backtrace with
           | [] => []
           | b0 :: _ => if b0 = "" then [] else [b0])
      else p.2
    let st2 := if h1 = [] then { st1 with is_crash := false } else st1
    { st2 with hashable_backtrace := h1 }

/-- Method `_process_file`: the full pipeline after reading. -/
def processFileFn (st : DebuggerFile) : DebuggerFile :=
  hashableBacktraceFn (processBacktraceFn (processLinesFn st))

/-- A full parse of one document, given its stripped lines and the two
construction flags. -/
def parseDoc (lines : List String) (exclude_unmapped keep_uniq : Bool) : DebuggerFile :=
  processFileFn (initState lines exclude_unmapped keep_uniq)

/-! ### Signature hashing -/

/-- Method `_hashable_backtrace_string(level)`: join the first `level`
tokens with single spaces and strip; when `keep_uniq_faddr` is set, append
the faulting address — the Python concatenation raises on a None faddr and
the exception is swallowed, leaving the joined string. -/
def hashableBacktraceStringFn (st : DebuggerFile) (level : Nat) : DebuggerFile × String :=
  let s0 := pyStrip (joinSpace (st.hashable_backtrace.take level))
  let s1 :=
    if st.keep_uniq_faddr then
      match st.faddr with
      | some f => s0 ++ " " ++ f
      | none => s0
    else s0
  ({ st with hashable_backtrace_string := s1 }, s1)

/-- Method `get_testcase_signature(backtrace_level)`.  The md5 hexdigest is
abstracted as a caller-supplied digest function on the canonical string;
everything up to that call is embedded exactly. -/
def getTestcaseSignature (digest : String → String) (st : DebuggerFile)
    (backtrace_level : Nat) : DebuggerFile × Option String :=
  let p := hashableBacktraceStringFn st backtrace_level
  (p.1, if p.2 = "" then none else some (digest p.2))

/-- Modelled on the words of the specification (section 4.7, `signature(depth)`):
join the first `depth` hashable tokens with single spaces, trim; if the
keep-unique-faulting-address mode is enabled and a faulting address was
captured, append it space-separated, silently skipping this step when no
faulting address is available.  Used to compare the source construction
against the spec's canonicalization string. -/
def specCanonicalString (st : DebuggerFile) (depth : Nat) : String :=
  let joined := pyStrip (joinSpace (st.hashable_backtrace.take depth))
  if st.keep_uniq_faddr then
    match st.faddr with
    | some f => joined ++ " " ++ f
    | none => joined
  else joined

/-! ### Shape lemmas -/

theorem btAddrMatch_shape (s g : List Char) (h : btAddrMatch s = some g) :
    ∃ hs, g = '0' :: 'x' :: hs := by
  unfold btAddrMatch at h
  split at h
  · dsimp only at h
    split at h
    · exact absurd h (by simp)
    · split at h
      · split at h
        · exact ⟨_, (Option.some.inj h).symm⟩
        · exact absurd h (by simp)
      · exact absurd h (by simp)
  · exact absurd h (by simp)

/-! ### C4: the architecture detector's length threshold -/

/-- C4: for every backtrace-address line the architecture detector sets
64-bit mode — `is_64bit`, program counter renamed to `rip`, and
`registers_sought` replaced by exactly the 64-bit register set — if and
only if the matched hex address string carries more than 8 hex digits
(the `0x`-prefixed group is longer than 10 characters); with at most 8
hex digits 32-bit mode persists, and once set the detector is a no-op. -/
theorem c4_arch_detector_threshold (st : DebuggerFile) (l : String) :
    (st.is_64bit = true → look_for_64bit st l = st) ∧
    (st.is_64bit = false →
      (btAddrMatch l.data = none → look_for_64bit st l = st) ∧
      (∀ g, btAddrMatch l.data = some g →
        (8 < (g.drop 2).length →
          look_for_64bit st l =
            { st with is_64bit := true, pc_name := "rip",
                      registers_sought := registers64 }) ∧
        ((g.drop 2).length ≤ 8 → look_for_64bit st l = st))) := by
  refine ⟨fun h => by simp [look_for_64bit, h],
          fun h => ⟨fun hn => by simp [look_for_64bit, h, hn], fun g hg => ?_⟩⟩
  obtain ⟨hs, rfl⟩ := btAddrMatch_shape _ _ hg
  have hdrop : (('0' :: 'x' :: hs).drop 2) = hs := rfl
  have hlen2 : ('0' :: 'x' :: hs).length = hs.length + 2 := by simp
  constructor
  · intro hlen
    rw [hdrop] at hlen
    simp only [look_for_64bit, h, Bool.false_eq_true, if_false, hg, hlen2]
    rw [if_pos (by omega)]
  · intro hlen
    rw [hdrop] at hlen
    simp only [look_for_64bit, h, Bool.false_eq_true, if_false, hg, hlen2]
    rw [if_neg (by omega)]

/-- C4 witness: a concrete 16-hex-digit address flips the state to 64-bit. -/
theorem c4_witness :
    look_for_64bit (initState [] true false) "0x0000000012345678  hello" =
      { initState [] true false with
          is_64bit := true, pc_name := "rip", registers_sought := registers64 } :=
  ((c4_arch_detector_threshold (initState [] true false)
      "0x0000000012345678  hello").2 (by decide)).2
    "0x0000000012345678".data (by decide) |>.1 (by decide)

/-! ### C6: signature idempotence -/

/-- C6: `get_testcase_signature` called twice with the same depth yields
the same output — the only state mutated by a call is the cached
`hashable_backtrace_string`, which the computation never reads. -/
theorem c6_signature_idempotent (digest : String → String) (st : DebuggerFile)
    (depth : Nat) :
    (getTestcaseSignature digest (getTestcaseSignature digest st depth).1 depth).2 =
      (getTestcaseSignature digest st depth).2 := rfl

/-! ### C7: the signature is absent iff the canonicalization string is empty -/

/-- C7: `get_testcase_signature(depth)` returns no digest exactly when the
spec's canonicalization string — first `depth` tokens joined by single
spaces, stripped, then suffixed with the faulting address when
`keep_uniq_faddr` is set and a faulting address exists (silently skipped
otherwise) — is empty, and otherwise returns the digest of exactly that
string. -/
theorem c7_signature_canonical (digest : String → String) (st : DebuggerFile)
    (depth : Nat) :
    ((getTestcaseSignature digest st depth).2 = none ↔
        specCanonicalString st depth = "") ∧
    (getTestcaseSignature digest st depth).2 =
      (if specCanonicalString st depth = "" then none
       else some (digest (specCanonicalString st depth))) := by
  have he : (hashableBacktraceStringFn st depth).2 = specCanonicalString st depth := rfl
  constructor
  · by_cases hc : specCanonicalString st depth = "" <;>
      simp [getTestcaseSignature, he, hc]
  · by_cases hc : specCanonicalString st depth = "" <;>
      simp [getTestcaseSignature, he, hc]

/-! ### C8: the exploitability extractor's faulting-address guard -/

/-- C8: an `Exploitability Classification: X` line is recorded only while
no (truthy) faulting address exists; a SIGABRT forces the faulting
address to the literal string '0', which is truthy; and no callback ever
turns a truthy faulting address falsy, so every later exploitability
line leaves the stored classification unchanged. -/
theorem c8_exploitability_guard (st : DebuggerFile) (l l2 : String) :
    (pyTruthyOpt st.faddr = true → look_for_exploitability st l = st) ∧
    (pyTruthyOpt st.faddr = false →
      (∀ g, exploitabilityMatch l.data = some g →
        look_for_exploitability st l = { st with exp := String.mk g }) ∧
      (exploitabilityMatch l.data = none → look_for_exploitability st l = st)) ∧
    (pyTruthyOpt st.signal = false →
      ∀ s, signalMatch l.data = some s → String.mk s = "SIGABRT" →
        (look_for_signal st l).faddr = some "0") ∧
    (∀ cb, pyTruthyOpt st.faddr = true →
      pyTruthyOpt ((runCallback cb st l2).faddr) = true) := by
  refine ⟨fun h => by simp [look_for_exploitability, h],
          fun h => ⟨fun g hg => by simp [look_for_exploitability, h, hg],
                    fun hn => by simp [look_for_exploitability, h, hn]⟩,
          fun hs s hsm habrt => by simp [look_for_signal, hs, hsm, habrt],
          fun cb h => ?_⟩
  cases cb <;>
    simp only [runCallback, look_for_64bit, look_for_exit_code, look_for_debug_build,
      look_for_corrupt_stack, look_for_libc_location, look_for_libgcc_location,
      look_for_signal, look_for_crash, look_for_registers, look_for_faddr,
      build_module_map, look_for_exploitability, h] <;>
    (repeat' split) <;>
    simp_all [pyTruthyOpt]

/-- C8 witness: with a forced SIGABRT faulting address of '0' in place, a
later exploitability line leaves the classification untouched; and the
SIGABRT line itself forces the faulting address to '0'. -/
theorem c8_witness :
    look_for_exploitability
        { initState [] true false with faddr := some "0" }
        "Exploitability Classification: EXPLOITABLE" =
      { initState [] true false with faddr := some "0" } ∧
    (look_for_signal (initState [] true false)
        "Program received signal SIGABRT, Aborted.").faddr = some "0" :=
  ⟨(c8_exploitability_guard { initState [] true false with faddr := some "0" }
      "Exploitability Classification: EXPLOITABLE" "").1 (by decide),
   ((c8_exploitability_guard (initState [] true false)
      "Program received signal SIGABRT, Aborted." "").2.2.1 (by decide)
      "SIGABRT".data (by decide) (by decide))⟩

/-! ### C10: a parsed zero address in the two unmapped-frame passes -/

theorem removeUnmappedLoop_append (mm : List ModuleEntry) (a b : List String) :
    removeUnmappedLoop mm (a ++ b) =
      removeUnmappedLoop mm a ++ removeUnmappedLoop mm b := by
  induction a with
  | nil => simp [removeUnmappedLoop]
  | cons x xs ih =>
    simp only [List.cons_append, removeUnmappedLoop]
    cases h : getFrameAddress x with
    | none => simp [h, ih]
    | some a2 =>
      simp only [h]
      split <;> simp [ih]

theorem removeUnmappedFn_backtrace (st : DebuggerFile) :
    (removeUnmappedFn st).backtrace = removeUnmappedLoop st.module_map st.backtrace := by
  unfold removeUnmappedFn
  dsimp only
  split <;> rfl

theorem isMappedFrame_zero (mm : List ModuleEntry) (hmm : mm ≠ []) :
    isMappedFrame mm 0 = false := by
  unfold isMappedFrame
  rw [if_neg (by simpa [List.length_eq_zero] using hmm)]
  simp

/-- C10: in the missed-corruption heuristic an outermost frame whose
parsed leading address is zero is treated like an addressless frame — the
trimming loop stops, dropping nothing and setting no flag, even though a
nonempty module map never maps address zero; the unmapped-frame filtering
pass, by contrast, treats the parsed zero as an address and deletes the
frame. -/
theorem c10_zero_address_asymmetry (st : DebuggerFile) (l : List String)
    (f : String) (g : List Char)
    (hb : st.backtrace = l ++ [f])
    (hf : btAddrMatch f.data = some g)
    (hz : hexNum0x g = 0)
    (hmm : st.module_map ≠ []) :
    missedCorruptionFn st = st ∧
    isMappedFrame st.module_map 0 = false ∧
    (removeUnmappedFn st).backtrace = removeUnmappedLoop st.module_map l := by
  have hfa : getFrameAddress f = some 0 := by simp [getFrameAddress, hf, hz]
  have hmap0 : isMappedFrame st.module_map 0 = false := isMappedFrame_zero _ hmm
  have htrim : trimRev st.module_map (f :: l.reverse) = (f :: l.reverse, false) := by
    unfold trimRev
    rw [hfa]
    simp
  refine ⟨?_, hmap0, ?_⟩
  · unfold missedCorruptionFn
    rw [hb]
    simp only [List.reverse_append, List.reverse_cons, List.reverse_nil,
      List.nil_append, List.singleton_append, htrim]
    simp only [List.reverse_cons, List.reverse_reverse, Bool.or_false,
      List.length_append, List.length_cons]
    rw [if_neg (by simp)]
    rw [← hb]
  · rw [removeUnmappedFn_backtrace, hb, removeUnmappedLoop_append]
    have h1 : removeUnmappedLoop st.module_map [f] = [] := by
      simp [removeUnmappedLoop, hfa, hmap0]
    rw [h1, List.append_nil]

/-- C10 witness: a concrete state whose outermost frame parses to address
zero under a nonempty module map covering neither address. -/
theorem c10_witness :
    missedCorruptionFn
        { initState [] true false with
            backtrace := ["0x08048400 in main ()", "0x0 in ?? ()"],
            module_map := [⟨134512640, 134516736, "/usr/bin/foo"⟩] } =
      { initState [] true false with
          backtrace := ["0x08048400 in main ()", "0x0 in ?? ()"],
          module_map := [⟨134512640, 134516736, "/usr/bin/foo"⟩] } ∧
    (removeUnmappedFn
        { initState [] true false with
            backtrace := ["0x08048400 in main ()", "0x0 in ?? ()"],
            module_map := [⟨134512640, 134516736, "/usr/bin/foo"⟩] }).backtrace =
      ["0x08048400 in main ()"] := by
  have h := c10_zero_address_asymmetry
    { initState [] true false with
        backtrace := ["0x08048400 in main ()", "0x0 in ?? ()"],
        module_map := [⟨134512640, 134516736, "/usr/bin/foo"⟩] }
    ["0x08048400 in main ()"] "0x0 in ?? ()" "0x0".data
    (by decide) (by decide) (by decide) (by decide)
  exact ⟨h.1, by rw [h.2.2]; decide⟩

/-! ### C5: program-counter substitution in the hashable builder -/

def doc5 : List String :=
  ["#0  ?? ()",
   "eip            0xdeadbeef       0xdeadbeef"]

/-- C5 counterexample: a parse whose only frame lacks an address while the
program counter is known.  The program counter is consumed
(`used_pc = true`), yet its hex value never appears as a token: the
primary token list comes out empty and the fallback emits the raw first
backtrace line instead. -/
theorem c5_counterexample :
    (parseDoc doc5 true false).used_pc = true ∧
    (parseDoc doc5 true false).registers_hex = [("eip", "0xdeadbeef")] ∧
    (parseDoc doc5 true false).hashable_backtrace = ["?? ()"] ∧
    ¬ "0xdeadbeef" ∈ (parseDoc doc5 true false).hashable_backtrace := by
  refine ⟨by decide, by decide, by decide, by decide⟩

/-- C5 amended: for the first frame lacking a parsed leading address, when
the program-counter register value is known and not yet substituted, the
program-counter value is used as the frame's synthetic numeric address
(feeding the libc/libgcc range filters) and marked consumed; but such a
frame contributes a token only through a source-location suffix — with no
`at file:line` suffix it contributes no token at all, and when the
substituted value lies in the libc range the frame is skipped outright. -/
theorem c5_pc_substitution_amended (st : DebuggerFile) (bt : String)
    (hn : btAddrMatch bt.data = none)
    (hpc : pyTruthyOpt (dictGet st.registers_hex st.pc_name) = true)
    (hu : st.used_pc = false) :
    (hbStep st bt).1 = { st with used_pc := true } ∧
    (btAtSearch bt.data = none → (hbStep st bt).2 = none) ∧
    (st.libc_start_addr <
        hexNum0x ((dictGet st.registers_hex st.pc_name).getD "").data ∧
       hexNum0x ((dictGet st.registers_hex st.pc_name).getD "").data <
        st.libc_end_addr →
      (hbStep st bt).2 = none) := by
  have hcond : (pyTruthyOpt (dictGet st.registers_hex st.pc_name) && !st.used_pc) = true := by
    rw [hpc, hu]; rfl
  refine ⟨?_, ?_, ?_⟩
  · simp only [hbStep, hn, hcond, if_true]
    repeat' split
    all_goals rfl
  · intro hat
    simp only [hbStep, hn, hcond, hat, if_true]
    repeat' split
    all_goals rfl
  · intro hrange
    simp only [hbStep, hn, hcond, if_true]
    rw [if_pos hrange]

/-- C5 witness: the amended theorem applied at a concrete state with a
known program counter and an addressless, suffixless frame. -/
theorem c5_witness :
    (hbStep { initState [] true false with registers_hex := [("eip", "0xdeadbeef")] }
        "?? ()").1 =
      { initState [] true false with
          registers_hex := [("eip", "0xdeadbeef")], used_pc := true } ∧
    (hbStep { initState [] true false with registers_hex := [("eip", "0xdeadbeef")] }
        "?? ()").2 = none := by
  have h := c5_pc_substitution_amended
    { initState [] true false with registers_hex := [("eip", "0xdeadbeef")] } "?? ()"
    (by decide) (by decide) (by decide)
  exact ⟨h.1, h.2.1 (by decide)⟩

/-! ### C1: the empty-token fallback tiers -/

theorem hbStep_state (st : DebuggerFile) (bt : String) :
    ∃ b, (hbStep st bt).1 = { st with used_pc := b } := by
  unfold hbStep
  dsimp only
  repeat' split
  all_goals first
    | exact ⟨true, rfl⟩
    | exact ⟨st.used_pc, rfl⟩

theorem hbLoop_state (bts : List String) :
    ∀ (st : DebuggerFile) (acc : List String),
      ∃ b, (hbLoop st bts acc).1 = { st with used_pc := b } := by
  induction bts with
  | nil => exact fun st acc => ⟨st.used_pc, rfl⟩
  | cons bt rest ih =>
    intro st acc
    simp only [hbLoop]
    obtain ⟨b1, h1⟩ := hbStep_state st bt
    obtain ⟨b2, h2⟩ := ih (hbStep st bt).1
      (match (hbStep st bt).2 with
       | some t => acc ++ [t]
       | none => acc)
    refine ⟨b2, ?_⟩
    rw [h2, h1]

theorem hbLoop_fst_fields (bts : List String) (st : DebuggerFile) (acc : List String) :
    (hbLoop st bts acc).1.total_stack_corruption = st.total_stack_corruption ∧
    (hbLoop st bts acc).1.exit_code = st.exit_code ∧
    (hbLoop st bts acc).1.backtrace = st.backtrace ∧
    (hbLoop st bts acc).1.registers = st.registers ∧
    (hbLoop st bts acc).1.registers_sought = st.registers_sought := by
  obtain ⟨b, h⟩ := hbLoop_state bts st acc
  rw [h]
  exact ⟨rfl, rfl, rfl, rfl, rfl⟩

/-- C1 amended: when the primary token list comes out empty, the fallback
appends the `total_stack_corruption` token if total stack corruption was
detected, and — independently, not exclusively — appends
`exit_code:<code>` if an exit code was captured, falling back to the raw
first pre-filter backtrace entry only when no exit code exists; so the
hashable list can contain both the total-stack-corruption token and an
exit-code token, in that order. -/
theorem c1_fallback_amended (st : DebuggerFile)
    (h0 : st.hashable_backtrace = [])
    (h1 : (hbLoop st st.backtrace []).2 = []) :
    (hashableBacktraceFn st).hashable_backtrace =
      (if st.total_stack_corruption = true then ["total_stack_corruption"] else []) ++
      (if pyTruthyOpt st.exit_code = true then ["exit_code:" ++ st.exit_code.getD ""]
       else
         match st.backtrace with
         | [] => []
         | b0 :: _ => if b0 = "" then [] else [b0]) := by
  unfold hashableBacktraceFn
  rw [if_neg (by simp [h0])]
  dsimp only
  obtain ⟨hts, hec, hbt, h4, h5⟩ := hbLoop_fst_fields st.backtrace st []
  rw [h1, hts, hec, hbt]
  simp

def doc1 : List String :=
  ["#0  0x00000001 in ?? ()",
   "0x08048000 0x08049000 0x00001000 0x0 /usr/bin/foo",
   "Program exited with code 3"]

/-- C1 counterexample: a document whose only frame is unmapped (so the
trim empties the backtrace and sets total stack corruption) and which
also reports an exit code: the fallback emits two tokens — both the
total-stack-corruption token and the exit-code token — not exactly one
chosen by a first-applicable rule. -/
theorem c1_counterexample :
    (parseDoc doc1 true false).hashable_backtrace =
      ["total_stack_corruption", "exit_code:3"] ∧
    (parseDoc doc1 true false).hashable_backtrace.length = 2 :=
  ⟨by decide, by decide⟩

/-- C1 witness: the amended fallback characterization applied to the
concrete post-normalization state of `doc1`. -/
theorem c1_witness :
    (hashableBacktraceFn
        (processBacktraceFn (processLinesFn (initState doc1 true false)))).hashable_backtrace =
      ["total_stack_corruption", "exit_code:3"] := by
  have h := c1_fallback_amended
    (processBacktraceFn (processLinesFn (initState doc1 true false)))
    (by decide) (by decide)
  rw [h]
  decide

/-! ### C9: the concrete two-frame document -/

def doc9 : List String :=
  ["#0  0x08048500 in foo () at bar.c:42",
   "#1  0x08048400 in main ()",
   "0x08048000 0x08049000 0x00001000 0x0 /usr/bin/foo"]

/-- C9: the two-frame document with a module-map entry covering both
addresses yields the hashable tokens `bar.c:42` and `0x08048400`, and a
non-absent signature at every depth at least 1. -/
theorem c9_concrete_document (digest : String → String) (d : Nat) (hd : 1 ≤ d) :
    (parseDoc doc9 true false).hashable_backtrace = ["bar.c:42", "0x08048400"] ∧
    (getTestcaseSignature digest (parseDoc doc9 true false) d).2 ≠ none := by
  have hhb : (parseDoc doc9 true false).hashable_backtrace =
      ["bar.c:42", "0x08048400"] := by decide
  have hk : (parseDoc doc9 true false).keep_uniq_faddr = false := by decide
  refine ⟨hhb, ?_⟩
  rcases d with _ | _ | n
  · exact absurd hd (by omega)
  · simp only [getTestcaseSignature, hashableBacktraceStringFn, hhb, hk,
      Bool.false_eq_true, if_false]
    rw [show pyStrip (joinSpace ((["bar.c:42", "0x08048400"] : List String).take 1)) =
        "bar.c:42" from by decide]
    rw [if_neg (by decide)]
    exact Option.some_ne_none _
  · have htake : (["bar.c:42", "0x08048400"] : List String).take (n + 2) =
        ["bar.c:42", "0x08048400"] := by
      apply List.take_of_length_le
      simp
    simp only [getTestcaseSignature, hashableBacktraceStringFn, hhb, hk,
      Bool.false_eq_true, if_false, htake]
    rw [show pyStrip (joinSpace (["bar.c:42", "0x08048400"] : List String)) =
        "bar.c:42 0x08048400" from by decide]
    rw [if_neg (by decide)]
    exact Option.some_ne_none _

/-- C9 witness: the theorem instantiated at depth 1 with the identity as
the digest function. -/
theorem c9_witness :
    (parseDoc doc9 true false).hashable_backtrace = ["bar.c:42", "0x08048400"] ∧
    (getTestcaseSignature (fun s => s) (parseDoc doc9 true false) 1).2 ≠ none :=
  c9_concrete_document (fun s => s) 1 (by decide)

/-! ### C3: extractor iteration under mid-loop self-removal -/

theorem runCallbacks_step (fuel i : Nat) (st : DebuggerFile) (l : String)
    (cb : Callback) (h : st.line_callbacks.get? i = some cb) :
    runCallbacks (fuel + 1) i st l =
      runCallbacks fuel (i + 1) (runCallback cb st l) l := by
  rw [show runCallbacks (fuel + 1) i st l =
      (match st.line_callbacks.get? i with
       | some cb2 => runCallbacks fuel (i + 1) (runCallback cb2 st l) l
       | none => st) from rfl, h]

theorem runCallbacks_stop (fuel i : Nat) (st : DebuggerFile) (l : String)
    (h : st.line_callbacks.get? i = none) :
    runCallbacks (fuel + 1) i st l = st := by
  rw [show runCallbacks (fuel + 1) i st l =
      (match st.line_callbacks.get? i with
       | some cb2 => runCallbacks fuel (i + 1) (runCallback cb2 st l) l
       | none => st) from rfl, h]

theorem lcb_preserved_ne (cb : Callback) (st : DebuggerFile) (l : String)
    (h : cb ≠ Callback.look_for_exit_code) :
    (runCallback cb st l).line_callbacks = st.line_callbacks := by
  cases cb <;>
    first
      | exact absurd rfl h
      | (simp only [runCallback, look_for_64bit, look_for_debug_build,
          look_for_corrupt_stack, look_for_libc_location, look_for_libgcc_location,
          look_for_signal, look_for_crash, look_for_registers, look_for_faddr,
          build_module_map, look_for_exploitability]
         repeat' split
         all_goals rfl)

theorem lcb_exit_none (st : DebuggerFile) (l : String)
    (h : exitCodeMatch l.data = none) :
    (runCallback Callback.look_for_exit_code st l).line_callbacks =
      st.line_callbacks := by
  simp [runCallback, look_for_exit_code, h]

theorem lcb_exit_some (st : DebuggerFile) (l : String) (c : List Char)
    (h : exitCodeMatch l.data = some c) :
    (runCallback Callback.look_for_exit_code st l).line_callbacks =
      st.line_callbacks.erase Callback.look_for_exit_code := by
  simp [runCallback, look_for_exit_code, h]

/-- Running a callback list sequentially (what the loop amounts to when
the live list is not mutated past the current index). -/
def runSeq : List Callback → DebuggerFile → String → DebuggerFile
  | [], st, _ => st
  | c :: rest, st, l => runSeq rest (runCallback c st l) l

theorem runCallbacks_eq_runSeq (l : String) (cbs : List Callback)
    (hpres : ∀ cb, cb ∈ cbs → ∀ st2 : DebuggerFile, st2.line_callbacks = cbs →
      (runCallback cb st2 l).line_callbacks = cbs) :
    ∀ (k i fuel : Nat) (st : DebuggerFile),
      st.line_callbacks = cbs → i + k = cbs.length → k < fuel →
      runCallbacks fuel i st l = runSeq (cbs.drop i) st l := by
  intro k
  induction k with
  | zero =>
    intro i fuel st hst hik hf
    have hi : i = cbs.length := by omega
    have hnone : st.line_callbacks.get? i = none := by
      rw [hst]
      exact List.get?_eq_none.mpr (by omega)
    obtain ⟨f, rfl⟩ : ∃ f, fuel = f + 1 := ⟨fuel - 1, by omega⟩
    rw [runCallbacks_stop f i st l hnone, hi, List.drop_length]
    rfl
  | succ k ih =>
    intro i fuel st hst hik hf
    have hi : i < cbs.length := by omega
    have hget : st.line_callbacks.get? i = some (cbs.get ⟨i, hi⟩) := by
      rw [hst]
      exact List.get?_eq_get hi
    obtain ⟨f, rfl⟩ : ∃ f, fuel = f + 1 := ⟨fuel - 1, by omega⟩
    rw [runCallbacks_step f i st l _ hget]
    have hst' := hpres _ (List.get_mem cbs i hi) st hst
    rw [ih (i + 1) f (runCallback (cbs.get ⟨i, hi⟩) st l) hst' (by omega) (by omega)]
    rw [(List.get_cons_drop cbs ⟨i, hi⟩).symm]
    rfl

/-- The live callback list after the exit-code extractor removes itself. -/
def elevenCallbacks : List Callback :=
  [Callback.look_for_64bit,
   Callback.look_for_debug_build,
   Callback.look_for_corrupt_stack,
   Callback.look_for_libc_location,
   Callback.look_for_libgcc_location,
   Callback.look_for_signal,
   Callback.look_for_crash,
   Callback.look_for_registers,
   Callback.look_for_faddr,
   Callback.build_module_map,
   Callback.look_for_exploitability]

/-- C3 amended: with the default registry, on a line the exit-code regex
does not match, every registered extractor runs exactly once in
registration order; on a line it does match, the exit-code extractor's
self-removal shifts the live list under the iterator, so the extractor
registered immediately after it — the debug-build detector — is skipped
for that line, while all other extractors still run once in order. -/
theorem c3_callback_iteration (st : DebuggerFile) (l : String)
    (hcb : st.line_callbacks = defaultCallbacks) :
    (exitCodeMatch l.data = none →
      runCallbacks (st.line_callbacks.length + 1) 0 st l =
        runSeq defaultCallbacks st l) ∧
    (∀ c, exitCodeMatch l.data = some c →
      runCallbacks (st.line_callbacks.length + 1) 0 st l =
        runSeq [Callback.look_for_64bit, Callback.look_for_exit_code,
                Callback.look_for_corrupt_stack, Callback.look_for_libc_location,
                Callback.look_for_libgcc_location, Callback.look_for_signal,
                Callback.look_for_crash, Callback.look_for_registers,
                Callback.look_for_faddr, Callback.build_module_map,
                Callback.look_for_exploitability] st l) := by
  constructor
  · intro hnone
    have hpres : ∀ cb, cb ∈ defaultCallbacks → ∀ st2 : DebuggerFile,
        st2.line_callbacks = defaultCallbacks →
        (runCallback cb st2 l).line_callbacks = defaultCallbacks := by
      intro cb _ st2 h2
      by_cases hc : cb = Callback.look_for_exit_code
      · subst hc
        rw [lcb_exit_none st2 l hnone, h2]
      · rw [lcb_preserved_ne cb st2 l hc, h2]
    have h := runCallbacks_eq_runSeq l defaultCallbacks hpres 12 0
      (st.line_callbacks.length + 1) st hcb (by decide)
      (by rw [hcb]; decide)
    rw [h, List.drop_zero]
  · intro c hc
    have hlen : st.line_callbacks.length + 1 = 13 := by rw [hcb]; rfl
    rw [hlen]
    rw [runCallbacks_step 12 0 st l Callback.look_for_64bit (by rw [hcb]; rfl)]
    have e1 : (runCallback Callback.look_for_64bit st l).line_callbacks =
        defaultCallbacks := by
      rw [lcb_preserved_ne _ _ _ (by decide), hcb]
    rw [runCallbacks_step 11 1 _ l Callback.look_for_exit_code (by rw [e1]; rfl)]
    have e2 : (runCallback Callback.look_for_exit_code
        (runCallback Callback.look_for_64bit st l) l).line_callbacks =
        elevenCallbacks := by
      rw [lcb_exit_some _ _ c hc, e1]
      decide
    have hpres11 : ∀ cb, cb ∈ elevenCallbacks → ∀ st2 : DebuggerFile,
        st2.line_callbacks = elevenCallbacks →
        (runCallback cb st2 l).line_callbacks = elevenCallbacks := by
      intro cb hmem st2 h2
      have hne : cb ≠ Callback.look_for_exit_code := by
        intro heq
        subst heq
        simp [elevenCallbacks] at hmem
      rw [lcb_preserved_ne cb st2 l hne, h2]
    rw [runCallbacks_eq_runSeq l elevenCallbacks hpres11 9 2 11 _ e2 (by decide)
      (by decide)]
    rfl

def doc3 : List String := ["Program exited with code 3 at foo"]

/-- C3 counterexample: on a line that matches the exit-code regex and
contains the debug-build marker `\x20at\x20`, the parse records the exit
code but never sets `is_debugbuild` — the debug-build extractor, next in
the registry, was skipped on that line — although running it on that very
line from the initial state would set the flag. -/
theorem c3_counterexample :
    (parseDoc doc3 true false).exit_code = some "3" ∧
    (parseDoc doc3 true false).is_debugbuild = false ∧
    containsStr " at " "Program exited with code 3 at foo" = true ∧
    (look_for_debug_build (initState doc3 true false)
        "Program exited with code 3 at foo").is_debugbuild = true :=
  ⟨by decide, by decide, by decide, by decide⟩

/-- C3 witness: the amended iteration theorem applied at the initial
state of `doc3` and its exit-code line. -/
theorem c3_witness :
    runCallbacks ((initState doc3 true false).line_callbacks.length + 1) 0
        (initState doc3 true false) "Program exited with code 3 at foo" =
      runSeq [Callback.look_for_64bit, Callback.look_for_exit_code,
              Callback.look_for_corrupt_stack, Callback.look_for_libc_location,
              Callback.look_for_libgcc_location, Callback.look_for_signal,
              Callback.look_for_crash, Callback.look_for_registers,
              Callback.look_for_faddr, Callback.build_module_map,
              Callback.look_for_exploitability]
        (initState doc3 true false) "Program exited with code 3 at foo" :=
  (c3_callback_iteration (initState doc3 true false)
      "Program exited with code 3 at foo" (by decide)).2 "3".data (by decide)

/-! ### C2: registers_sought versus recorded registers -/

/-- The claimed invariant: no register name is simultaneously still
sought and already recorded (plus nodup bookkeeping for the sought
list, which holds initially and is preserved by erasure). -/
def regInvariant (st : DebuggerFile) : Prop :=
  st.registers_sought.Nodup ∧
  ∀ r ∈ st.registers_sought, r ∉ dictKeys st.registers

/-- A line that cannot fire the 64-bit switch: its backtrace-address
match, if any, has at most 10 characters (at most 8 hex digits). -/
def no64Trigger (l : String) : Bool :=
  match btAddrMatch l.data with
  | some g => decide (g.length ≤ 10)
  | none => true

theorem dictKeys_cons (p : String × String) (t : List (String × String)) :
    dictKeys (p :: t) = p.1 :: dictKeys t := rfl

theorem mem_dictKeys_insert (d : List (String × String)) (k v x : String) :
    x ∈ dictKeys (dictInsert d k v) ↔ x ∈ dictKeys d ∨ x = k := by
  induction d with
  | nil => simp [dictInsert, dictKeys]
  | cons p rest ih =>
    obtain ⟨k0, v0⟩ := p
    by_cases h : k0 = k
    · subst h
      simp only [dictInsert, eq_self_iff_true, if_true, dictKeys_cons, List.mem_cons]
      tauto
    · simp only [dictInsert, if_neg h, dictKeys_cons, List.mem_cons, ih]
      tauto

theorem regInv_runCallback (cb : Callback) (st : DebuggerFile) (l : String)
    (hl : no64Trigger l = true) (h : regInvariant st) :
    regInvariant (runCallback cb st l) := by
  cases cb
  case look_for_64bit =>
    simp only [runCallback, look_for_64bit]
    split
    · exact h
    · cases hg : btAddrMatch l.data with
      | none => exact h
      | some g =>
        have hlen : g.length ≤ 10 := by
          simp [no64Trigger, hg] at hl
          exact hl
        show regInvariant
          (if 10 < g.length then
            { st with is_64bit := true, pc_name := "rip",
                      registers_sought := registers64 }
           else st)
        rw [if_neg (by omega)]
        exact h
  case look_for_registers =>
    simp only [runCallback, look_for_registers]
    split
    · exact h
    · split
      · exact h
      · split
        · split
          · obtain ⟨hnd, hdisj⟩ := h
            refine ⟨hnd.erase _, ?_⟩
            intro x hx
            rw [List.Nodup.mem_erase_iff hnd] at hx
            intro hk
            rw [mem_dictKeys_insert] at hk
            rcases hk with hk | hk
            · exact hdisj x hx.2 hk
            · exact hx.1 hk
          · exact h
        · exact h
  all_goals
    simp only [runCallback, look_for_exit_code, look_for_debug_build,
      look_for_corrupt_stack, look_for_libc_location, look_for_libgcc_location,
      look_for_signal, look_for_crash, look_for_faddr, build_module_map,
      look_for_exploitability]
  all_goals (repeat' split)
  all_goals exact h

theorem regInv_runCallbacks (l : String) (hl : no64Trigger l = true) :
    ∀ (fuel i : Nat) (st : DebuggerFile), regInvariant st →
      regInvariant (runCallbacks fuel i st l) := by
  intro fuel
  induction fuel with
  | zero => exact fun i st h => h
  | succ f ih =>
    intro i st h
    rw [show runCallbacks (f + 1) i st l =
        (match st.line_callbacks.get? i with
         | some cb => runCallbacks f (i + 1) (runCallback cb st l) l
         | none => st) from rfl]
    cases hg : st.line_callbacks.get? i with
    | none => exact h
    | some cb => exact ih (i + 1) _ (regInv_runCallback cb st l hl h)

theorem regInv_processLine (st : DebuggerFile) (idx : Nat) (l : String)
    (hl : no64Trigger l = true) (h : regInvariant st) :
    regInvariant (processLineFn st idx l) :=
  regInv_runCallbacks l hl _ 0 _ h

theorem regInv_processLinesAux :
    ∀ (ps : List (Nat × String)) (st : DebuggerFile),
      (∀ p ∈ ps, no64Trigger p.2 = true) → regInvariant st →
      regInvariant (processLinesAux st ps) := by
  intro ps
  induction ps with
  | nil => exact fun st _ h => h
  | cons p rest ih =>
    intro st hps h
    obtain ⟨i, l⟩ := p
    exact ih _ (fun q hq => hps q (List.mem_cons_of_mem _ hq))
      (regInv_processLine st i l (hps (i, l) (List.mem_cons_self _ _)) h)

theorem regInvariant_of_fields (a b : DebuggerFile)
    (h1 : a.registers = b.registers) (h2 : a.registers_sought = b.registers_sought)
    (h : regInvariant b) : regInvariant a := by
  unfold regInvariant at *
  rw [h1, h2]
  exact h

theorem missedCorruptionFn_registers (st : DebuggerFile) :
    (missedCorruptionFn st).registers = st.registers := by
  unfold missedCorruptionFn
  dsimp only
  split <;> rfl

theorem missedCorruptionFn_sought (st : DebuggerFile) :
    (missedCorruptionFn st).registers_sought = st.registers_sought := by
  unfold missedCorruptionFn
  dsimp only
  split <;> rfl

theorem removeUnmappedFn_registers (st : DebuggerFile) :
    (removeUnmappedFn st).registers = st.registers := by
  unfold removeUnmappedFn
  dsimp only
  split <;> rfl

theorem removeUnmappedFn_sought (st : DebuggerFile) :
    (removeUnmappedFn st).registers_sought = st.registers_sought := by
  unfold removeUnmappedFn
  dsimp only
  split <;> rfl

theorem processBacktraceFn_registers (st : DebuggerFile) :
    (processBacktraceFn st).registers = st.registers := by
  unfold processBacktraceFn
  dsimp only
  repeat' split
  all_goals simp [missedCorruptionFn_registers, removeUnmappedFn_registers]

theorem processBacktraceFn_sought (st : DebuggerFile) :
    (processBacktraceFn st).registers_sought = st.registers_sought := by
  unfold processBacktraceFn
  dsimp only
  repeat' split
  all_goals simp [missedCorruptionFn_sought, removeUnmappedFn_sought]

theorem hashableBacktraceFn_registers (st : DebuggerFile) :
    (hashableBacktraceFn st).registers = st.registers := by
  unfold hashableBacktraceFn
  dsimp only
  obtain ⟨_, _, _, hreg, _⟩ := hbLoop_fst_fields st.backtrace st []
  split
  · rfl
  · repeat' split
    all_goals simp [hreg]

theorem hashableBacktraceFn_sought (st : DebuggerFile) :
    (hashableBacktraceFn st).registers_sought = st.registers_sought := by
  unfold hashableBacktraceFn
  dsimp only
  obtain ⟨_, _, _, _, hsou⟩ := hbLoop_fst_fields st.backtrace st []
  split
  · rfl
  · repeat' split
    all_goals simp [hsou]

/-- C2 amended: the disjointness invariant `registers_sought ∩
registers.keys = ∅` holds at every point of a parse in which the 64-bit
architecture switch never fires (no line carries a backtrace-address
match longer than 10 characters): it holds after any prefix of the line
loop and after the full parse.  The switch itself breaks it, because it
resets `registers_sought` to the full 64-bit list, whose shared segment
registers may already have been recorded. -/
theorem c2_sought_disjoint_amended (lines : List String) (excl keep : Bool)
    (hl : ∀ p ∈ (initState lines excl keep).lines.enum, no64Trigger p.2 = true) :
    (∀ n, regInvariant (processLinesAux (initState lines excl keep)
        ((initState lines excl keep).lines.enum.take n))) ∧
    regInvariant (parseDoc lines excl keep) := by
  have hnd : registers32.Nodup := by decide
  have h0 : regInvariant (initState lines excl keep) :=
    ⟨hnd, by intro r hr; simp [initState, dictKeys]⟩
  constructor
  · intro n
    exact regInv_processLinesAux _ _ (fun p hp => hl p (List.take_subset n _ hp)) h0
  · unfold parseDoc processFileFn
    have hA : regInvariant (processLinesFn (initState lines excl keep)) :=
      regInv_processLinesAux _ _ hl h0
    exact regInvariant_of_fields _ _ (hashableBacktraceFn_registers _)
      (hashableBacktraceFn_sought _)
      (regInvariant_of_fields _ _ (processBacktraceFn_registers _)
        (processBacktraceFn_sought _) hA)

def doc2 : List String :=
  ["cs             0x23     35",
   "0x00007ffff7dd9000 0x00007ffff7dd9100 whatever"]

/-- C2 counterexample: a parse that records the segment register `cs`
and then meets a 16-hex-digit backtrace address: the 64-bit switch
resets `registers_sought` to the full 64-bit list, so `cs` is both
recorded in `registers` and once again sought. -/
theorem c2_counterexample :
    "cs" ∈ (parseDoc doc2 true false).registers_sought ∧
    "cs" ∈ dictKeys (parseDoc doc2 true false).registers :=
  ⟨by decide, by decide⟩

/-- C2 witness: the amended invariant on a concrete one-line document
that records a register and never triggers the switch. -/
theorem c2_witness :
    regInvariant (parseDoc ["eax            0x1     1"] true false) :=
  (c2_sought_disjoint_amended ["eax            0x1     1"] true false (by decide)).2
